import Mathlib

/-!
# Verification of the SkyRide Weather API backend (`src/Backend/app.py`)

This file shallowly embeds the core pipeline of `app.py`:

* `convert_kelvin_to_celsius` — the unit converter (Python `round(value - 273.15, 1)`
  on IEEE-754 binary64 floats, modelled exactly as dyadic rationals);
* `convert_cityname_to_coordinate` — the geocoding client (transport outcome is an
  explicit input; Python dict/list access and exception flow modelled explicitly);
* `weather_info` — the weather client;
* `formatter` — the response formatter, with Python `dict.get` defaulting,
  `[0]` indexing, and the `try/except` wrapper producing `Data formatting error: ...`;
* `weather` / `weatherRoute` — the `/weather` endpoint orchestration and the
  HTTP surface (status code plus JSON body).

JSON values are modelled by the inductive `Json`; Python numbers (ints and floats)
are carried as exact rationals — every binary64 float is a dyadic rational, and the
float operations the code performs (`-` and `round(·, 1)`) are modelled exactly by
`fl` (round-to-nearest-even at 53 significant bits, normal range) and decimal
rounding of the exact value.  Python exceptions are modelled by `PyErr` and
`Except`; FastAPI's `HTTPException` by the structure `HTTPException`.
-/

section SkyRide

set_option maxRecDepth 100000

attribute [local semireducible] Rat.mul Rat.inv Rat.add Rat.sub

/-- JSON values, as produced by `response.json()` in Python: `None`, booleans,
numbers (ints and floats, both exact rationals here), strings, arrays, and
objects (association lists of string keys, insertion-ordered like Python dicts). -/
inductive Json where
  | null : Json
  | bool (b : Bool) : Json
  | num (q : ℚ) : Json
  | str (s : String) : Json
  | arr (xs : List Json) : Json
  | obj (kvs : List (String × Json)) : Json

/-- Python exceptions that the embedded code can raise, with enough payload to
reproduce `str(e)` as the code interpolates it into error messages. -/
inductive PyErr where
  | requestExc (msg : String) : PyErr
  | valueErr (msg : String) : PyErr
  | keyErr (key : String) : PyErr
  | typeErr (msg : String) : PyErr
  | attrErr (msg : String) : PyErr
  | indexErr (msg : String) : PyErr

/-- Python `str(e)`.  For `KeyError`, `str` shows the `repr` of the key, which for
a string key is the key wrapped in single quotes. -/
def PyErr.toString : PyErr → String
  | .requestExc m => m
  | .valueErr m => m
  | .keyErr k => "\x27" ++ k ++ "\x27"
  | .typeErr m => m
  | .attrErr m => m
  | .indexErr m => m

/-- FastAPI `HTTPException(status_code=..., detail=...)`. -/
structure HTTPException where
  status : ℕ
  detail : String

/-- Python type name of a value, as it appears in `TypeError` messages. -/
def Json.pyTypeName : Json → String
  | .null => "NoneType"
  | .bool _ => "bool"
  | .num _ => "float"
  | .str _ => "str"
  | .arr _ => "list"
  | .obj _ => "dict"

/-- Python truthiness: `None`, `False`, `0`, `""`, `[]`, `{}` are falsy. -/
def Json.truthy : Json → Bool
  | .null => false
  | .bool b => b
  | .num q => q ≠ 0
  | .str s => s ≠ ""
  | .arr xs => !xs.isEmpty
  | .obj kvs => !kvs.isEmpty

/-- First binding of a key in an association list (Python dict lookup; the
code never builds dicts with duplicate keys). -/
def lookupKey (kvs : List (String × Json)) (k : String) : Option Json :=
  match kvs with
  | [] => none
  | (k₀, v₀) :: rest => if k₀ = k then some v₀ else lookupKey rest k

/-- Python `v.get(k, d)`: only dicts have `.get`; a present key wins even if its
value is `None` or falsy, the default applies only to an absent key. -/
def pyDictGet (v : Json) (k : String) (d : Json) : Except PyErr Json :=
  match v with
  | .obj kvs => .ok ((lookupKey kvs k).getD d)
  | _ => .error (.attrErr ("\x27" ++ v.pyTypeName ++ "\x27 object has no attribute \x27get\x27"))

/-- Python `v[k]` with a string key: dict lookup raising `KeyError` on absence;
subscription with a string key fails on every other type. -/
def pySubscript (v : Json) (k : String) : Except PyErr Json :=
  match v with
  | .obj kvs =>
    match lookupKey kvs k with
    | some x => .ok x
    | none => .error (.keyErr k)
  | .arr _ => .error (.typeErr "list indices must be integers or slices, not str")
  | .str _ => .error (.typeErr "string indices must be integers")
  | _ => .error (.typeErr ("\x27" ++ v.pyTypeName ++ "\x27 object is not subscriptable"))

/-- Python `v[0]`: first element of a list (or first character of a string);
`IndexError` when empty, `KeyError 0`-style failure on dicts, `TypeError`
otherwise.  A dict subscripted with `0` raises `KeyError(0)`, whose `str` is
`"0"`; we reuse `typeErr` to carry that message since no claim depends on it. -/
def pyIndexZero (v : Json) : Except PyErr Json :=
  match v with
  | .arr [] => .error (.indexErr "list index out of range")
  | .arr (x :: _) => .ok x
  | .str s =>
    match s.data with
    | [] => .error (.indexErr "string index out of range")
    | c :: _ => .ok (.str (String.mk [c]))
  | .obj _ => .error (.typeErr "0")
  | _ => .error (.typeErr ("\x27" ++ v.pyTypeName ++ "\x27 object is not subscriptable"))

/-- Python `len(v)` for lists, strings and dicts; `TypeError` otherwise. -/
def pyLen (v : Json) : Except PyErr ℕ :=
  match v with
  | .arr xs => .ok xs.length
  | .str s => .ok s.length
  | .obj kvs => .ok kvs.length
  | _ => .error (.typeErr ("object of type \x27" ++ v.pyTypeName ++ "\x27 has no len()"))

/-- Python `d[k] = x` on a dict: update the binding in place if present,
append at the end otherwise (insertion order). -/
def setKey (kvs : List (String × Json)) (k : String) (x : Json) : List (String × Json) :=
  match kvs with
  | [] => [(k, x)]
  | (k₀, v₀) :: rest => if k₀ = k then (k₀, x) :: rest else (k₀, v₀) :: setKey rest k x

/-- Python `v[k] = x`: assignment requires a dict. -/
def pySetKey (v : Json) (k : String) (x : Json) : Except PyErr Json :=
  match v with
  | .obj kvs => .ok (.obj (setKey kvs k x))
  | _ => .error (.typeErr ("\x27" ++ v.pyTypeName ++ "\x27 object does not support item assignment"))

/-! ## Exact model of the binary64 float operations the code performs -/

/-- Round a rational to the nearest integer, ties to even. -/
def rhe (q : ℚ) : ℤ :=
  let f : ℤ := ⌊q⌋
  let r : ℚ := q - f
  if r < 1/2 then f
  else if 1/2 < r then f + 1
  else if f % 2 = 0 then f else f + 1

/-- Binary exponent search: scale `a` into `[1, 2)` and report the exponent.
Structural fuel recursion so the kernel can evaluate it; fuel 4500 covers the
full binary64 exponent range. -/
def findE : ℕ → ℚ → ℤ → ℤ
  | 0, _, e => e
  | fuel + 1, a, e =>
    if a < 1 then findE fuel (a * 2) (e - 1)
    else if 2 ≤ a then findE fuel (a / 2) (e + 1)
    else e

/-- `⌊log₂ a⌋` for a positive rational. -/
def flExp (a : ℚ) : ℤ := findE 4500 a 0

/-- Round a real (rational) value to the nearest binary64 float
(round-to-nearest, ties to even), for values in the normal range: the result is
the dyadic rational the float denotes.  Overflow and subnormals are outside the
range this program manipulates and are not modelled. -/
def fl (q : ℚ) : ℚ :=
  if q = 0 then 0
  else
    let a : ℚ := |q|
    let e : ℤ := flExp a
    let m : ℤ := rhe (a * (2 : ℚ) ^ (52 - e))
    (if q < 0 then (-1 : ℚ) else 1) * (m : ℚ) * (2 : ℚ) ^ (e - 52)

/-- The binary64 float denoted by the Python literal `273.15`. -/
def lit27315 : ℚ := fl (27315 / 100)

/-- Python `round(x, 1)` on a binary64 float `x`: CPython rounds the exact
binary value of `x` to one decimal place (ties to even — unreachable for dyadic
inputs, whose tenths are never exact halves) and returns the nearest float to
that decimal. -/
def pyRound1 (x : ℚ) : ℚ := fl ((rhe (10 * x) : ℚ) / 10)

/-- `app.py` line 29–30: `round(value - 273.15, 1)`.  The subtraction is a
binary64 subtraction (exact difference, then rounded to a float), the rounding
is Python `round(·, 1)`. -/
def convert_kelvin_to_celsius (value : ℚ) : ℚ :=
  pyRound1 (fl (value - lit27315))


/-! ## The pipeline components of `app.py` -/

/-- Python `convert_kelvin_to_celsius(x)` applied to a JSON value `x`:
`x - 273.15` succeeds on numbers (and booleans, which are ints in Python) and
raises `TypeError` on anything else — in particular on `None`. -/
def pyConvertTemp (v : Json) : Except PyErr Json :=
  match v with
  | .num q => .ok (.num (convert_kelvin_to_celsius q))
  | .bool b => .ok (.num (convert_kelvin_to_celsius (if b then 1 else 0)))
  | _ => .error (.typeErr
      ("unsupported operand type(s) for -: \x27" ++ v.pyTypeName ++ "\x27 and \x27float\x27"))

/-- The `try` body of `formatter` (`app.py` lines 85–121), with Python's
evaluation order: the three sub-object extractions first, then the fields of the
result dict literal in source order. -/
def formatterBody (payload : Json) : Except PyErr Json := do
  let weather ← pyDictGet payload "weather" (.arr [.obj []]) >>= pyIndexZero
  let main ← pyDictGet payload "main" (.obj [])
  let wind ← pyDictGet payload "wind" (.obj [])
  let city ← pyDictGet payload "name" .null
  let sys ← pyDictGet payload "sys" (.obj [])
  let country ← pyDictGet sys "country" .null
  let coords ← pyDictGet payload "coord" .null
  let condLabel ← pyDictGet weather "main" .null
  let condDescription ← pyDictGet weather "description" .null
  let condIcon ← pyDictGet weather "icon" .null
  let currentC ← pyDictGet main "temp" (.num 0) >>= pyConvertTemp
  let feelsLikeC ← pyDictGet main "feels_like" (.num 0) >>= pyConvertTemp
  let minC ← pyDictGet main "temp_min" (.num 0) >>= pyConvertTemp
  let maxC ← pyDictGet main "temp_max" (.num 0) >>= pyConvertTemp
  let humidity ← pyDictGet main "humidity" .null
  let pressure ← pyDictGet main "pressure" .null
  let windSpeed ← pyDictGet wind "speed" .null
  let windDeg ← pyDictGet wind "deg" .null
  let windGust ← pyDictGet wind "gust" .null
  let visibility ← pyDictGet payload "visibility" .null
  let clouds ← pyDictGet payload "clouds" (.obj [])
  let cloudCover ← pyDictGet clouds "all" .null
  let timestamp ← pyDictGet payload "dt" .null
  let timezoneOffset ← pyDictGet payload "timezone" .null
  pure (.obj
    [ ("city", city)
    , ("country", country)
    , ("coordinates", coords)
    , ("conditions", .obj
        [ ("label", condLabel)
        , ("description", condDescription)
        , ("icon", condIcon) ])
    , ("temperature", .obj
        [ ("current_c", currentC)
        , ("feels_like_c", feelsLikeC)
        , ("min_c", minC)
        , ("max_c", maxC) ])
    , ("humidity", humidity)
    , ("pressure", pressure)
    , ("wind", .obj
        [ ("speed_mps", windSpeed)
        , ("direction_deg", windDeg)
        , ("gust_mps", windGust) ])
    , ("visibility_m", visibility)
    , ("cloud_cover_pct", cloudCover)
    , ("timestamp", timestamp)
    , ("timezone_offset_s", timezoneOffset)
    , ("source", .str "openweathermap") ])

/-- `formatter` (`app.py` lines 83–119): the `try` body wrapped by
`except Exception as e: raise HTTPException(500, f"Data formatting error: {e}")`. -/
def formatter (payload : Json) : Except HTTPException Json :=
  match formatterBody payload with
  | .ok j => .ok j
  | .error e => .error ⟨500, "Data formatting error: " ++ e.toString⟩

/-- Outcome of a `requests.get(url, timeout=5)` followed by
`raise_for_status()`: either a parsed JSON body, or a
`requests.exceptions.RequestException` (connection error, timeout, non-2xx
status) carrying its message. -/
inductive UpstreamResult where
  | success (data : Json) : UpstreamResult
  | transportError (msg : String) : UpstreamResult

/-- The `try` body of `convert_cityname_to_coordinate` after the transport
succeeded (`app.py` lines 44–49): the emptiness check
`if not data.get('results') or len(data['results']) == 0`, then
`lon = data['results'][0]['lon']` and `lat = data['results'][0]['lat']`,
returning `(lat, lon)`. -/
def geocodeBody (city : String) (data : Json) : Except PyErr (Json × Json) := do
  let results ← pyDictGet data "results" .null
  if results.truthy = false then
    throw (.valueErr ("City \x27" ++ city ++ "\x27 not found in geocoding results"))
  else do
    let rs ← pySubscript data "results"
    let n ← pyLen rs
    if n = 0 then
      throw (.valueErr ("City \x27" ++ city ++ "\x27 not found in geocoding results"))
    else do
      let firstForLon ← pySubscript data "results" >>= pyIndexZero
      let lon ← pySubscript firstForLon "lon"
      let firstForLat ← pySubscript data "results" >>= pyIndexZero
      let lat ← pySubscript firstForLat "lat"
      pure (lat, lon)

/-- `convert_cityname_to_coordinate` (`app.py` lines 33–57), with the transport
outcome as an explicit input.  A `RequestException` is translated to
`HTTPException(500, "Geocoding API error: ... Check GEOCODING_API_KEY.")`; any
other exception from the body falls into `except Exception` and becomes
`HTTPException(500, str(e))`. -/
def convert_cityname_to_coordinate (city : String) (resp : UpstreamResult) :
    Except HTTPException (Json × Json) :=
  match resp with
  | .transportError m =>
    .error ⟨500, "Geocoding API error: " ++ m ++ ". Check GEOCODING_API_KEY."⟩
  | .success data =>
    match geocodeBody city data with
    | .ok x => .ok x
    | .error e => .error ⟨500, e.toString⟩

/-- `weather_info` (`app.py` lines 59–81), with the transport outcome as an
explicit input: a transport failure becomes
`HTTPException(500, "Weather API error: ... Check OPENWEATHER_API_KEY.")`, a
success returns the parsed JSON body verbatim. -/
def weather_info (resp : UpstreamResult) : Except HTTPException Json :=
  match resp with
  | .transportError m =>
    .error ⟨500, "Weather API error: " ++ m ++ ". Check OPENWEATHER_API_KEY."⟩
  | .success data => .ok data

/-- The `/weather` endpoint handler (`app.py` lines 135–167): geocode, fetch,
format, attach `input_city`; `HTTPException`s propagate unchanged and any other
exception becomes `HTTPException(500, "Unexpected error: ...")`.  The weather
provider is an explicit input, a function of the resolved `(lat, lon)`. -/
def weather (city : String) (geo : UpstreamResult)
    (wsvc : Json → Json → UpstreamResult) : Except HTTPException Json := do
  let coord ← convert_cityname_to_coordinate city geo
  let payload ← weather_info (wsvc coord.1 coord.2)
  let formatted ← formatter payload
  match pySetKey formatted "input_city" (.str city) with
  | .ok out => pure out
  | .error e => throw ⟨500, "Unexpected error: " ++ e.toString⟩

/-- The HTTP surface of `GET /weather`: status code and JSON body.  FastAPI
renders a raised `HTTPException` as its status code with body
`{"detail": <detail>}`. -/
def weatherRoute (city : String) (geo : UpstreamResult)
    (wsvc : Json → Json → UpstreamResult) : ℕ × Json :=
  match weather city geo wsvc with
  | .ok body => (200, body)
  | .error e => (e.status, .obj [("detail", .str e.detail)])

/-- Field access on a formatted result (for stating properties): the value of
key `k` if `j` is an object containing it. -/
def jlook (j : Json) (k : String) : Option Json :=
  match j with
  | .obj kvs => lookupKey kvs k
  | _ => none



/-- Substring test on character lists (Python `needle in hay`). -/
def containsSub (hay needle : List Char) : Bool :=
  match hay with
  | [] => needle.isEmpty
  | _ :: t => needle.isPrefixOf hay || containsSub t needle

/-- A representative `requests` timeout message for the geocoding call: the
exception names the geocoding provider's host. -/
def geoTimeoutMsg : String :=
  "HTTPSConnectionPool(host=\x27api.geoapify.com\x27, port=443): Read timed out. (read timeout=5)"

/-- The formatted output for the empty payload `{}`: every optional field is
null, every temperature is the conversion of the 0-kelvin default. -/
def emptyPayloadFormatted : Json := .obj
  [ ("city", .null)
  , ("country", .null)
  , ("coordinates", .null)
  , ("conditions", .obj [("label", .null), ("description", .null), ("icon", .null)])
  , ("temperature", .obj
      [ ("current_c", .num (fl (-2731 / 10)))
      , ("feels_like_c", .num (fl (-2731 / 10)))
      , ("min_c", .num (fl (-2731 / 10)))
      , ("max_c", .num (fl (-2731 / 10))) ])
  , ("humidity", .null)
  , ("pressure", .null)
  , ("wind", .obj [("speed_mps", .null), ("direction_deg", .null), ("gust_mps", .null)])
  , ("visibility_m", .null)
  , ("cloud_cover_pct", .null)
  , ("timestamp", .null)
  , ("timezone_offset_s", .null)
  , ("source", .str "openweathermap") ]

/-- The mocked geocoding response of the end-to-end test in the spec: a single
result for London. -/
def geoLondon : UpstreamResult := .success (.obj [("results", .arr
  [.obj [("lat", .num (fl (5151 / 100))), ("lon", .num (fl (-13 / 100)))]])])

/-- The mocked weather provider payload of the end-to-end test in the spec (all
float literals taken as their binary64 values). -/
def payloadLondon : Json := .obj
  [ ("main", .obj [("temp", .num (fl (28315 / 100))), ("feels_like", .num (fl 282)),
      ("temp_min", .num (fl 281)), ("temp_max", .num (fl 285)),
      ("humidity", .num 70), ("pressure", .num 1012)])
  , ("weather", .arr [.obj [("main", .str "Clouds"),
      ("description", .str "overcast clouds"), ("icon", .str "04d")]])
  , ("wind", .obj [("speed", .num (fl (31 / 10))), ("deg", .num 200)])
  , ("name", .str "London")
  , ("sys", .obj [("country", .str "GB")])
  , ("coord", .obj [("lat", .num (fl (5151 / 100))), ("lon", .num (fl (-13 / 100)))])
  , ("visibility", .num 10000)
  , ("clouds", .obj [("all", .num 90)])
  , ("dt", .num 1700000000)
  , ("timezone", .num 0) ]

/-- The `/weather` response for `city="London"` against the mocked providers. -/
def londonResponse : ℕ × Json :=
  weatherRoute "London" geoLondon (fun _ _ => .success payloadLondon)


/-! ## Helper lemmas for reasoning about the `Except` pipelines -/

theorem exbind_ok_simp {ε α β : Type} (a : α) (f : α → Except ε β) :
    ((Except.ok a : Except ε α) >>= f) = f a := rfl

theorem exbind_err_simp {ε α β : Type} (e : ε) (f : α → Except ε β) :
    ((Except.error e : Except ε α) >>= f) = .error e := rfl

theorem expure {ε α : Type} (a : α) : (pure a : Except ε α) = .ok a := rfl

theorem exthrow {ε α : Type} (e : ε) : (throw e : Except ε α) = .error e := rfl

theorem exbind_ok {ε α β : Type} {x : Except ε α} {f : α → Except ε β} {b : β} :
    (x >>= f) = .ok b ↔ ∃ a, x = .ok a ∧ f a = .ok b := by
  cases x <;> simp [exbind_ok_simp, exbind_err_simp]
theorem formatterBody_ok_decomp {p out : Json} (h : formatterBody p = .ok out) :
    ∃ w, (∃ wa, pyDictGet p "weather" (.arr [.obj []]) = .ok wa ∧ pyIndexZero wa = .ok w) ∧
    ∃ mn, pyDictGet p "main" (.obj []) = .ok mn ∧
    ∃ wd, pyDictGet p "wind" (.obj []) = .ok wd ∧
    ∃ city, pyDictGet p "name" .null = .ok city ∧
    ∃ sys, pyDictGet p "sys" (.obj []) = .ok sys ∧
    ∃ country, pyDictGet sys "country" .null = .ok country ∧
    ∃ coords, pyDictGet p "coord" .null = .ok coords ∧
    ∃ cl, pyDictGet w "main" .null = .ok cl ∧
    ∃ cd, pyDictGet w "description" .null = .ok cd ∧
    ∃ ci, pyDictGet w "icon" .null = .ok ci ∧
    ∃ t1, (∃ r1, pyDictGet mn "temp" (.num 0) = .ok r1 ∧ pyConvertTemp r1 = .ok t1) ∧
    ∃ t2, (∃ r2, pyDictGet mn "feels_like" (.num 0) = .ok r2 ∧ pyConvertTemp r2 = .ok t2) ∧
    ∃ t3, (∃ r3, pyDictGet mn "temp_min" (.num 0) = .ok r3 ∧ pyConvertTemp r3 = .ok t3) ∧
    ∃ t4, (∃ r4, pyDictGet mn "temp_max" (.num 0) = .ok r4 ∧ pyConvertTemp r4 = .ok t4) ∧
    ∃ hum, pyDictGet mn "humidity" .null = .ok hum ∧
    ∃ pr, pyDictGet mn "pressure" .null = .ok pr ∧
    ∃ ws, pyDictGet wd "speed" .null = .ok ws ∧
    ∃ wdg, pyDictGet wd "deg" .null = .ok wdg ∧
    ∃ wg, pyDictGet wd "gust" .null = .ok wg ∧
    ∃ vis, pyDictGet p "visibility" .null = .ok vis ∧
    ∃ cls, pyDictGet p "clouds" (.obj []) = .ok cls ∧
    ∃ cc, pyDictGet cls "all" .null = .ok cc ∧
    ∃ ts, pyDictGet p "dt" .null = .ok ts ∧
    ∃ tz, pyDictGet p "timezone" .null = .ok tz ∧
    Json.obj
      [ ("city", city)
      , ("country", country)
      , ("coordinates", coords)
      , ("conditions", .obj
          [ ("label", cl)
          , ("description", cd)
          , ("icon", ci) ])
      , ("temperature", .obj
          [ ("current_c", t1)
          , ("feels_like_c", t2)
          , ("min_c", t3)
          , ("max_c", t4) ])
      , ("humidity", hum)
      , ("pressure", pr)
      , ("wind", .obj
          [ ("speed_mps", ws)
          , ("direction_deg", wdg)
          , ("gust_mps", wg) ])
      , ("visibility_m", vis)
      , ("cloud_cover_pct", cc)
      , ("timestamp", ts)
      , ("timezone_offset_s", tz)
      , ("source", .str "openweathermap") ] = out := by
  simp only [formatterBody, exbind_ok, expure, Except.ok.injEq] at h
  exact h

/-- A successfully formatted result is always a JSON object. -/
theorem formatterBody_ok_shape {p out : Json} (h : formatterBody p = .ok out) :
    ∃ l, out = Json.obj l := by
  obtain ⟨w, -, mn, -, wd, -, city, -, sys, -, country, -, coords, -, cl, -, cd, -,
    ci, -, t1, -, t2, -, t3, -, t4, -, hum, -, pr, -, ws, -, wdg, -, wg, -, vis, -,
    cls, -, cc, -, ts, -, tz, -, hout⟩ := formatterBody_ok_decomp h
  exact ⟨_, hout.symm⟩

/-- Converting the 0-kelvin default yields the binary64 float of `-273.1`. -/
theorem convert_zero_val : convert_kelvin_to_celsius 0 = fl (-2731 / 10) := by decide

/-- The formatter succeeds on the empty payload with the all-defaults output. -/
theorem formatter_empty_payload : formatter (.obj []) = .ok emptyPayloadFormatted := rfl

/-- Case analysis on the `/weather` handler: it either succeeds or fails with an
`HTTPException` whose status is 500 — every error constructed anywhere in the
pipeline carries status 500. -/
theorem weather_cases (city : String) (geo : UpstreamResult)
    (wsvc : Json → Json → UpstreamResult) :
    (∃ out, weather city geo wsvc = .ok out) ∨
    (∃ d, weather city geo wsvc = .error ⟨500, d⟩) := by
  cases geo with
  | transportError m =>
    right
    refine ⟨"Geocoding API error: " ++ m ++ ". Check GEOCODING_API_KEY.", ?_⟩
    simp [weather, convert_cityname_to_coordinate, exbind_err_simp]
  | success d =>
    cases hg : geocodeBody city d with
    | error pe =>
      right
      exact ⟨pe.toString, by simp [weather, convert_cityname_to_coordinate, hg,
        exbind_err_simp]⟩
    | ok ll =>
      cases hw : wsvc ll.1 ll.2 with
      | transportError m =>
        right
        refine ⟨"Weather API error: " ++ m ++ ". Check OPENWEATHER_API_KEY.", ?_⟩
        simp [weather, convert_cityname_to_coordinate, hg, exbind_ok_simp, hw,
          weather_info, exbind_err_simp]
      | success pd =>
        cases hf : formatterBody pd with
        | error e =>
          right
          refine ⟨"Data formatting error: " ++ e.toString, ?_⟩
          simp [weather, convert_cityname_to_coordinate, hg, exbind_ok_simp, hw,
            weather_info, formatter, hf, exbind_err_simp]
        | ok out =>
          left
          obtain ⟨l, hl⟩ := formatterBody_ok_shape hf
          subst hl
          refine ⟨.obj (setKey l "input_city" (.str city)), ?_⟩
          simp [weather, convert_cityname_to_coordinate, hg, exbind_ok_simp, hw,
            weather_info, formatter, hf, pySetKey, expure]

/-! ## The claims -/

/-- Claim C1, counterexample: on the payload `{"weather": []}` — whose
top-level `weather` key is present and maps to an empty array — `format()` does
not succeed: `payload.get("weather", [{}])` returns the present empty list, and
`[][0]` raises `IndexError`, so the formatter fails with a formatting error.
This refutes the claim that `format()` succeeds on every such payload. -/
theorem formatter_empty_weather_array_fails :
    formatter (.obj [("weather", .arr [])]) =
      .error ⟨500, "Data formatting error: list index out of range"⟩ := rfl

/-- Claim C1 (amended): when the top-level `weather` key is present and maps to
an empty array, `format()` fails with `Data formatting error: list index out of
range` regardless of the rest of the payload; it is when the `weather` key is
absent that the `[{}]` default applies, and any successful `format()` then
returns `conditions = {label: null, description: null, icon: null}`. -/
theorem formatter_weather_key_cases :
    (∀ kvs : List (String × Json), lookupKey kvs "weather" = some (.arr []) →
      formatter (.obj kvs) = .error ⟨500, "Data formatting error: list index out of range"⟩) ∧
    (∀ (kvs : List (String × Json)) (out : Json), lookupKey kvs "weather" = none →
      formatter (.obj kvs) = .ok out →
      jlook out "conditions" =
        some (.obj [("label", .null), ("description", .null), ("icon", .null)])) := by
  constructor
  · intro kvs h
    simp [formatter, formatterBody, pyDictGet, h, pyIndexZero, exbind_err_simp,
      exbind_ok_simp, PyErr.toString]
  · intro kvs out h hok
    have hb : formatterBody (.obj kvs) = .ok out := by
      revert hok
      unfold formatter
      cases hfb : formatterBody (.obj kvs) with
      | error e => simp
      | ok j => simp only [Except.ok.injEq]; intro hj; rw [hj]
    obtain ⟨w, ⟨wa, hwa, hw⟩, mn, hmn, wd, hwd, city, hcity, sys, hsys, country, hcountry,
      coords, hcoords, cl, hcl, cd, hcd, ci, hci, t1, ⟨r1, hr1, ht1⟩, t2, ⟨r2, hr2, ht2⟩,
      t3, ⟨r3, hr3, ht3⟩, t4, ⟨r4, hr4, ht4⟩, hum, hhum, pr, hpr, ws, hws, wdg, hwdg,
      wg, hwg, vis, hvis, cls, hcls, cc, hcc, ts, hts, tz, htz, hout⟩ :=
      formatterBody_ok_decomp hb
    simp only [pyDictGet, h, Option.getD, Except.ok.injEq] at hwa
    subst hwa
    simp only [pyIndexZero, Except.ok.injEq] at hw
    subst hw
    simp only [pyDictGet, lookupKey, Except.ok.injEq] at hcl hcd hci
    subst hcl hcd hci
    subst hout
    simp [jlook, lookupKey]

/-- Claim C1, witness: the failure branch at the concrete payload
`{"weather": [], "name": "Lagos"}` and the defaulting branch at the empty
payload. -/
theorem formatter_weather_key_cases_witness :
    formatter (.obj [("weather", .arr []), ("name", .str "Lagos")]) =
      .error ⟨500, "Data formatting error: list index out of range"⟩ ∧
    jlook emptyPayloadFormatted "conditions" =
      some (.obj [("label", .null), ("description", .null), ("icon", .null)]) :=
  ⟨formatter_weather_key_cases.1 [("weather", .arr []), ("name", .str "Lagos")] rfl,
   formatter_weather_key_cases.2 [] emptyPayloadFormatted rfl rfl⟩

/-- Claim C2: the unit converter computes Python `round(kelvin - 273.15, 1)` on
binary64 floats and never fails (it is a total function); at the spec's test
inputs, `toCelsius(273.15) == 0.0`, `toCelsius(0) == -273.1` (the float denoted
by the literal `-273.1`), and `toCelsius(300) == 26.9`. -/
theorem convert_kelvin_to_celsius_spec :
    (∀ k : ℚ, convert_kelvin_to_celsius k = pyRound1 (fl (k - lit27315))) ∧
    convert_kelvin_to_celsius lit27315 = 0 ∧
    convert_kelvin_to_celsius 0 = fl (-2731 / 10) ∧
    convert_kelvin_to_celsius 300 = fl (269 / 10) :=
  ⟨fun _ => rfl, by decide, convert_zero_val, by decide⟩

/-- Claim C3: on a geocoding response whose `results` key is absent or maps to
an empty array, `convert_cityname_to_coordinate` fails with the not-found
`HTTPException` naming the requested city (never a crash), and the `/weather`
endpoint surfaces it as HTTP 500 with a detail naming that city. -/
theorem resolveCity_empty_results_not_found :
    ∀ (city : String) (kvs : List (String × Json)) (wsvc : Json → Json → UpstreamResult),
      (lookupKey kvs "results" = none ∨ lookupKey kvs "results" = some (.arr [])) →
      convert_cityname_to_coordinate city (.success (.obj kvs)) =
        .error ⟨500, "City \x27" ++ city ++ "\x27 not found in geocoding results"⟩ ∧
      weatherRoute city (.success (.obj kvs)) wsvc =
        (500, .obj [("detail",
          .str ("City \x27" ++ city ++ "\x27 not found in geocoding results"))]) := by
  intro city kvs wsvc h
  have hgc : convert_cityname_to_coordinate city (.success (.obj kvs)) =
      .error ⟨500, "City \x27" ++ city ++ "\x27 not found in geocoding results"⟩ := by
    rcases h with h | h <;>
      simp [convert_cityname_to_coordinate, geocodeBody, pyDictGet, h, Json.truthy,
        exbind_ok_simp, exthrow, PyErr.toString, List.isEmpty]
  exact ⟨hgc, by simp [weatherRoute, weather, hgc, exbind_err_simp]⟩

/-- Claim C3, witness: city "Atlantis" with `results: []`. -/
theorem resolveCity_empty_results_not_found_witness :
    convert_cityname_to_coordinate "Atlantis" (.success (.obj [("results", .arr [])])) =
      .error ⟨500, "City \x27Atlantis\x27 not found in geocoding results"⟩ ∧
    weatherRoute "Atlantis" (.success (.obj [("results", .arr [])]))
      (fun _ _ => .transportError "unused") =
      (500, .obj [("detail", .str "City \x27Atlantis\x27 not found in geocoding results")]) :=
  resolveCity_empty_results_not_found "Atlantis" [("results", .arr [])]
    (fun _ _ => .transportError "unused") (Or.inr rfl)

/-- Claim C4: when a temperature field (`temp`, `feels_like`, `temp_min`,
`temp_max`) is absent from the `main` sub-object (itself defaulted to `{}` when
absent), `format()` applies the unit converter to the default source value `0`
kelvin, so the corresponding output field of a successful formatting equals the
binary64 float of `-273.1` — a number, not null. -/
theorem formatter_missing_temp_defaults :
    ∀ (kvs mkvs : List (String × Json)) (out : Json),
      (lookupKey kvs "main").getD (.obj []) = .obj mkvs →
      formatter (.obj kvs) = .ok out →
      ((lookupKey mkvs "temp" = none →
        (jlook out "temperature").bind (fun t => jlook t "current_c") =
          some (.num (fl (-2731 / 10)))) ∧
       (lookupKey mkvs "feels_like" = none →
        (jlook out "temperature").bind (fun t => jlook t "feels_like_c") =
          some (.num (fl (-2731 / 10)))) ∧
       (lookupKey mkvs "temp_min" = none →
        (jlook out "temperature").bind (fun t => jlook t "min_c") =
          some (.num (fl (-2731 / 10)))) ∧
       (lookupKey mkvs "temp_max" = none →
        (jlook out "temperature").bind (fun t => jlook t "max_c") =
          some (.num (fl (-2731 / 10)))) ∧
       Json.num (fl (-2731 / 10)) ≠ Json.null) := by
  intro kvs mkvs out hmain hok
  have hb : formatterBody (.obj kvs) = .ok out := by
    revert hok
    unfold formatter
    cases hfb : formatterBody (.obj kvs) with
    | error e => simp
    | ok j => simp only [Except.ok.injEq]; intro hj; rw [hj]
  obtain ⟨w, ⟨wa, hwa, hw⟩, mn, hmn, wd, hwd, city, hcity, sys, hsys, country, hcountry,
    coords, hcoords, cl, hcl, cd, hcd, ci, hci, t1, ⟨r1, hr1, ht1⟩, t2, ⟨r2, hr2, ht2⟩,
    t3, ⟨r3, hr3, ht3⟩, t4, ⟨r4, hr4, ht4⟩, hum, hhum, pr, hpr, ws, hws, wdg, hwdg,
    wg, hwg, vis, hvis, cls, hcls, cc, hcc, ts, hts, tz, htz, hout⟩ :=
    formatterBody_ok_decomp hb
  simp only [pyDictGet, hmain, Except.ok.injEq] at hmn
  subst hmn
  subst hout
  refine ⟨?_, ?_, ?_, ?_, by simp⟩
  · intro habs
    simp only [pyDictGet, habs, Option.getD, Except.ok.injEq] at hr1
    subst hr1
    simp only [pyConvertTemp, convert_zero_val, Except.ok.injEq] at ht1
    subst ht1
    simp [jlook, lookupKey]
  · intro habs
    simp only [pyDictGet, habs, Option.getD, Except.ok.injEq] at hr2
    subst hr2
    simp only [pyConvertTemp, convert_zero_val, Except.ok.injEq] at ht2
    subst ht2
    simp [jlook, lookupKey]
  · intro habs
    simp only [pyDictGet, habs, Option.getD, Except.ok.injEq] at hr3
    subst hr3
    simp only [pyConvertTemp, convert_zero_val, Except.ok.injEq] at ht3
    subst ht3
    simp [jlook, lookupKey]
  · intro habs
    simp only [pyDictGet, habs, Option.getD, Except.ok.injEq] at hr4
    subst hr4
    simp only [pyConvertTemp, convert_zero_val, Except.ok.injEq] at ht4
    subst ht4
    simp [jlook, lookupKey]

/-- Claim C4, witness: the empty payload, whose `main` defaults to `{}` with
every temperature key absent, formats with `current_c` equal to the binary64
float of `-273.1`. -/
theorem formatter_missing_temp_defaults_witness :
    (jlook emptyPayloadFormatted "temperature").bind (fun t => jlook t "current_c") =
      some (.num (fl (-2731 / 10))) :=
  (formatter_missing_temp_defaults [] [] emptyPayloadFormatted rfl rfl).1 rfl

/-- Claim C5, counterexample: the payload `{"main": null}` lacks the top-level
`wind` key entirely, yet `format()` fails — `payload.get("main", {})` returns
the present `None`, and `None.get("temp", 0)` raises `AttributeError` — so the
claim that `format()` succeeds on every payload lacking `wind` is false. -/
theorem formatter_null_main_fails_without_wind :
    formatter (.obj [("main", .null)]) =
      .error ⟨500, "Data formatting error: \x27NoneType\x27 object has no attribute \x27get\x27"⟩ := rfl

/-- Claim C5 (amended): the absence of the `wind` key never itself causes
`format()` to fail — any successful `format()` of a payload lacking `wind`
returns `wind = {speed_mps: null, direction_deg: null, gust_mps: null}`, and on
the empty payload `format()` does succeed with exactly those nulls — but
`format()` may still fail on such a payload for unrelated reasons. -/
theorem formatter_missing_wind_nulls :
    (∀ (kvs : List (String × Json)) (out : Json), lookupKey kvs "wind" = none →
      formatter (.obj kvs) = .ok out →
      jlook out "wind" =
        some (.obj [("speed_mps", .null), ("direction_deg", .null), ("gust_mps", .null)])) ∧
    ((formatter (.obj [])).toOption.bind (fun j => jlook j "wind") =
      some (.obj [("speed_mps", .null), ("direction_deg", .null), ("gust_mps", .null)])) := by
  constructor
  · intro kvs out h hok
    have hb : formatterBody (.obj kvs) = .ok out := by
      revert hok
      unfold formatter
      cases hfb : formatterBody (.obj kvs) with
      | error e => simp
      | ok j => simp only [Except.ok.injEq]; intro hj; rw [hj]
    obtain ⟨w, ⟨wa, hwa, hw⟩, mn, hmn, wd, hwd, city, hcity, sys, hsys, country, hcountry,
      coords, hcoords, cl, hcl, cd, hcd, ci, hci, t1, ⟨r1, hr1, ht1⟩, t2, ⟨r2, hr2, ht2⟩,
      t3, ⟨r3, hr3, ht3⟩, t4, ⟨r4, hr4, ht4⟩, hum, hhum, pr, hpr, ws, hws, wdg, hwdg,
      wg, hwg, vis, hvis, cls, hcls, cc, hcc, ts, hts, tz, htz, hout⟩ :=
      formatterBody_ok_decomp hb
    simp only [pyDictGet, h, Option.getD, Except.ok.injEq] at hwd
    subst hwd
    simp only [pyDictGet, lookupKey, Except.ok.injEq] at hws hwdg hwg
    subst hws hwdg hwg
    subst hout
    simp [jlook, lookupKey]
  · rfl

/-- Claim C5, witness: the empty payload lacks `wind` and formats successfully
with all wind fields null. -/
theorem formatter_missing_wind_nulls_witness :
    jlook emptyPayloadFormatted "wind" =
      some (.obj [("speed_mps", .null), ("direction_deg", .null), ("gust_mps", .null)]) :=
  formatter_missing_wind_nulls.1 [] emptyPayloadFormatted rfl rfl

/-- Claim C6: on a geocoding response with a non-empty result list,
`convert_cityname_to_coordinate` returns the latitude/longitude of the first
result only — the tail of the result list is universally quantified and does
not influence the outcome. -/
theorem resolveCity_first_result :
    ∀ (city : String) (kvs : List (String × Json)) (first : Json) (rest : List Json)
      (la lv : Json),
      lookupKey kvs "results" = some (.arr (first :: rest)) →
      pySubscript first "lat" = .ok la →
      pySubscript first "lon" = .ok lv →
      convert_cityname_to_coordinate city (.success (.obj kvs)) = .ok (la, lv) := by
  intro city kvs first rest la lv h hla hlv
  have hres : pySubscript (.obj kvs) "results" = .ok (.arr (first :: rest)) := by
    simp [pySubscript, h]
  simp [convert_cityname_to_coordinate, geocodeBody, pyDictGet, h, hres, Json.truthy,
    pyLen, pyIndexZero, exbind_ok_simp, expure, hla, hlv, List.isEmpty]

/-- Claim C6, witness: two results for "London"; the first one is returned. -/
theorem resolveCity_first_result_witness :
    convert_cityname_to_coordinate "London" (.success (.obj [("results", .arr
      [.obj [("lat", .num 1), ("lon", .num 2)],
       .obj [("lat", .num 3), ("lon", .num 4)]])])) = .ok (.num 1, .num 2) :=
  resolveCity_first_result "London"
    [("results", .arr [.obj [("lat", .num 1), ("lon", .num 2)],
      .obj [("lat", .num 3), ("lon", .num 4)]])]
    (.obj [("lat", .num 1), ("lon", .num 2)])
    [.obj [("lat", .num 3), ("lon", .num 4)]] (.num 1) (.num 2) rfl rfl rfl

/-- Claim C7: every `/weather` response is either HTTP 200 or HTTP 500 with
body `{"detail": <message>}` — no other status code occurs for any error kind —
and a geocoding transport timeout in particular yields a 500 whose detail
message mentions the geocoding provider (`Geocoding`, with the geocoding
host in the cause) and never the weather provider (`Weather`). -/
theorem weather_endpoint_uniform_500 :
    (∀ (city : String) (geo : UpstreamResult) (wsvc : Json → Json → UpstreamResult),
      (weatherRoute city geo wsvc).1 = 200 ∨
      ((weatherRoute city geo wsvc).1 = 500 ∧
        ∃ m, (weatherRoute city geo wsvc).2 = .obj [("detail", .str m)])) ∧
    (∀ wsvc : Json → Json → UpstreamResult,
      weatherRoute "London" (.transportError geoTimeoutMsg) wsvc =
        (500, .obj [("detail",
          .str ("Geocoding API error: " ++ geoTimeoutMsg ++ ". Check GEOCODING_API_KEY."))]) ∧
      containsSub ("Geocoding API error: " ++ geoTimeoutMsg ++
        ". Check GEOCODING_API_KEY.").data "Geocoding".data = true ∧
      containsSub ("Geocoding API error: " ++ geoTimeoutMsg ++
        ". Check GEOCODING_API_KEY.").data "Weather".data = false) := by
  constructor
  · intro city geo wsvc
    rcases weather_cases city geo wsvc with ⟨out, hok⟩ | ⟨d, herr⟩
    · left
      simp [weatherRoute, hok]
    · right
      exact ⟨by simp [weatherRoute, herr], d, by simp [weatherRoute, herr]⟩
  · intro wsvc
    refine ⟨?_, by decide, by decide⟩
    simp [weatherRoute, weather, convert_cityname_to_coordinate, exbind_err_simp]

/-- Claim C8: the end-to-end scenario of the spec — `city="London"`, mocked
geocoding result at (51.51, -0.13), mocked weather payload with
`main.temp = 283.15` kelvin — produces HTTP 200 with `city == "London"`,
`input_city == "London"` (attached by the orchestrator after formatting), and
`temperature.current_c == 10.0` exactly. -/
theorem weather_endpoint_london_end_to_end :
    londonResponse.1 = 200 ∧
    jlook londonResponse.2 "city" = some (.str "London") ∧
    jlook londonResponse.2 "input_city" = some (.str "London") ∧
    (jlook londonResponse.2 "temperature").bind (fun t => jlook t "current_c") =
      some (.num 10) :=
  ⟨rfl, rfl, rfl, rfl⟩

/-- Claim C9: defaulting applies only to absent keys — when `main` contains
`temp` mapped to `null`, `format()` does not default it to 0 kelvin but fails
(`None - 273.15` raises `TypeError`), and the `/weather` endpoint surfaces this
as HTTP 500 with a detail starting `Data formatting error: `. -/
theorem formatter_null_temp_errors :
    ∀ (kvs mkvs : List (String × Json)),
      lookupKey kvs "main" = some (.obj mkvs) →
      lookupKey mkvs "temp" = some .null →
      ∃ m, formatter (.obj kvs) = .error ⟨500, "Data formatting error: " ++ m⟩ ∧
        weatherRoute "X"
          (.success (.obj [("results", .arr [.obj [("lat", .num 0), ("lon", .num 0)]])]))
          (fun _ _ => .success (.obj kvs)) =
          (500, .obj [("detail", .str ("Data formatting error: " ++ m))]) := by
  intro kvs mkvs hmain htemp
  cases hb : formatterBody (.obj kvs) with
  | ok out =>
    exfalso
    obtain ⟨w, ⟨wa, hwa, hw⟩, mn, hmn, wd, hwd, city, hcity, sys, hsys, country, hcountry,
      coords, hcoords, cl, hcl, cd, hcd, ci, hci, t1, ⟨r1, hr1, ht1⟩, t2, ⟨r2, hr2, ht2⟩,
      t3, ⟨r3, hr3, ht3⟩, t4, ⟨r4, hr4, ht4⟩, hum, hhum, pr, hpr, ws, hws, wdg, hwdg,
      wg, hwg, vis, hvis, cls, hcls, cc, hcc, ts, hts, tz, htz, hout⟩ :=
      formatterBody_ok_decomp hb
    simp only [pyDictGet, hmain, Option.getD, Except.ok.injEq] at hmn
    subst hmn
    simp only [pyDictGet, htemp, Option.getD, Except.ok.injEq] at hr1
    subst hr1
    simp [pyConvertTemp] at ht1
  | error e =>
    refine ⟨e.toString, by simp [formatter, hb], ?_⟩
    simp [weatherRoute, weather, convert_cityname_to_coordinate, geocodeBody, pyDictGet,
      lookupKey, Json.truthy, pySubscript, pyLen, pyIndexZero, exbind_ok_simp,
      exbind_err_simp, exthrow, expure, weather_info, formatter, hb]

/-- Claim C9, witness: the payload `{"main": {"temp": null}}`. -/
theorem formatter_null_temp_errors_witness :
    ∃ m, formatter (.obj [("main", .obj [("temp", .null)])]) =
      .error ⟨500, "Data formatting error: " ++ m⟩ ∧
      weatherRoute "X"
        (.success (.obj [("results", .arr [.obj [("lat", .num 0), ("lon", .num 0)]])]))
        (fun _ _ => .success (.obj [("main", .obj [("temp", .null)])])) =
        (500, .obj [("detail", .str ("Data formatting error: " ++ m))]) :=
  formatter_null_temp_errors [("main", .obj [("temp", .null)])] [("temp", .null)] rfl rfl

/-- Claim C10: a non-empty `results` array whose first element lacks `lon` (or
has `lon` but lacks `lat`) makes `convert_cityname_to_coordinate` fail through
the generic handler: the `KeyError` becomes HTTP 500 whose detail is exactly
`str(KeyError(k))` — the missing key's name in quotes — not a not-found or
upstream-error message; `lon` is looked up first. -/
theorem resolveCity_missing_latlon_keyerror :
    ∀ (city : String) (kvs fkvs : List (String × Json)) (rest : List Json)
      (wsvc : Json → Json → UpstreamResult),
      lookupKey kvs "results" = some (.arr (.obj fkvs :: rest)) →
      ((lookupKey fkvs "lon" = none →
        convert_cityname_to_coordinate city (.success (.obj kvs)) =
          .error ⟨500, "\x27lon\x27"⟩ ∧
        weatherRoute city (.success (.obj kvs)) wsvc =
          (500, .obj [("detail", .str "\x27lon\x27")])) ∧
       (∀ lv, lookupKey fkvs "lon" = some lv → lookupKey fkvs "lat" = none →
        convert_cityname_to_coordinate city (.success (.obj kvs)) =
          .error ⟨500, "\x27lat\x27"⟩ ∧
        weatherRoute city (.success (.obj kvs)) wsvc =
          (500, .obj [("detail", .str "\x27lat\x27")]))) := by
  intro city kvs fkvs rest wsvc h
  constructor
  · intro hlon
    have hgc : convert_cityname_to_coordinate city (.success (.obj kvs)) =
        .error ⟨500, "\x27lon\x27"⟩ := by
      simp [convert_cityname_to_coordinate, geocodeBody, pyDictGet, h, Json.truthy,
        pySubscript, pyLen, pyIndexZero, exbind_ok_simp, exbind_err_simp, hlon,
        PyErr.toString, List.isEmpty]
    exact ⟨hgc, by simp [weatherRoute, weather, hgc, exbind_err_simp]⟩
  · intro lv hlv hlat
    have hgc : convert_cityname_to_coordinate city (.success (.obj kvs)) =
        .error ⟨500, "\x27lat\x27"⟩ := by
      simp [convert_cityname_to_coordinate, geocodeBody, pyDictGet, h, Json.truthy,
        pySubscript, pyLen, pyIndexZero, exbind_ok_simp, exbind_err_simp, hlv, hlat,
        PyErr.toString, List.isEmpty]
    exact ⟨hgc, by simp [weatherRoute, weather, hgc, exbind_err_simp]⟩

/-- Claim C10, witness: a first result with only `lat` yields detail `'lon'`; a
first result with only `lon` yields detail `'lat'`. -/
theorem resolveCity_missing_latlon_keyerror_witness :
    (convert_cityname_to_coordinate "P" (.success (.obj [("results", .arr
      [.obj [("lat", .num 1)]])])) = .error ⟨500, "\x27lon\x27"⟩ ∧
     weatherRoute "P" (.success (.obj [("results", .arr [.obj [("lat", .num 1)]])]))
       (fun _ _ => .transportError "unused") =
       (500, .obj [("detail", .str "\x27lon\x27")])) ∧
    (convert_cityname_to_coordinate "Q" (.success (.obj [("results", .arr
      [.obj [("lon", .num 2)]])])) = .error ⟨500, "\x27lat\x27"⟩ ∧
     weatherRoute "Q" (.success (.obj [("results", .arr [.obj [("lon", .num 2)]])]))
       (fun _ _ => .transportError "unused") =
       (500, .obj [("detail", .str "\x27lat\x27")])) :=
  ⟨(resolveCity_missing_latlon_keyerror "P" [("results", .arr [.obj [("lat", .num 1)]])]
      [("lat", .num 1)] [] (fun _ _ => .transportError "unused") rfl).1 rfl,
   (resolveCity_missing_latlon_keyerror "Q" [("results", .arr [.obj [("lon", .num 2)]])]
      [("lon", .num 2)] [] (fun _ _ => .transportError "unused") rfl).2 (.num 2) rfl rfl⟩

end SkyRide
